import Mathlib

/-!
# Verification of the periscope-viewer overlay core

A shallow embedding of `src/main.rs` of the periscope-viewer repository:
the configuration data model, the condition evaluator, the active-set
construction, the color decoder, the per-item position computation and the
store-update step of the network client. `f32` arithmetic is idealised as
exact rational arithmetic (`ℚ`); machine integers (`u8`, `u32`) are `Nat`
with explicit masking where the code depends on width.
-/

namespace Periscope

/-- Embeds `StickState` (main.rs lines 26–30): a 2D float pair. -/
structure StickState where
  x : ℚ
  y : ℚ
deriving DecidableEq, Repr

/-- Embeds `ControllerState` (main.rs lines 32–39): one wire snapshot.
`id` and `c` are `u8`, `bs` is `u32`; modelled as `Nat`. -/
structure ControllerState where
  id : Nat
  c : Nat
  bs : Nat
  ls : StickState
  rs : StickState
deriving DecidableEq, Repr

/-- Embeds the `ConditionValue` enum (main.rs lines 50–81), in declaration
order. -/
inductive ConditionValue where
  | ButtonA
  | ButtonB
  | ButtonX
  | ButtonY
  | ButtonStickLeft
  | ButtonStickRight
  | ButtonL
  | ButtonR
  | ButtonZL
  | ButtonZR
  | ButtonPlus
  | ButtonMinus
  | ButtonDpadLeft
  | ButtonDpadUp
  | ButtonDpadRight
  | ButtonDpadDown
  | ButtonCapture
  | ButtonHome
  | StickLeftActive
  | StickRightActive
  | Connected
  | Connected0
  | Connected1
  | Connected2
  | Connected3
  | Connected4
  | Connected5
  | Connected6
  | Connected7
deriving DecidableEq, Repr

/-- Embeds `Condition` (main.rs lines 83–87). -/
structure Condition where
  not : Bool
  value : ConditionValue
deriving DecidableEq, Repr

/-- One pass of the inner condition loop (main.rs lines 375–379 and
412–416): `found = active.iter().any(|c| c == &condition.value)`; the pair
passes when `found == !condition.not`. -/
def conditionSatisfied (active : List ConditionValue) (cond : Condition) : Bool :=
  (active.any fun c => c == cond.value) == !cond.not

/-- The item-activation decision (`'item_loop` in main.rs lines 374–380 and
411–417): an item survives the loop iff every condition in its list passes;
`continue 'item_loop` on the first failing pair is the short-circuit of
`List.all`. -/
def itemActive (conds : List Condition) (active : List ConditionValue) : Bool :=
  conds.all fun cond => conditionSatisfied active cond

/-- Embeds `egui::Vec2` as used by the config (a 2D float pair). -/
structure Vec2 where
  x : ℚ
  y : ℚ
deriving DecidableEq, Repr

/-- Embeds `egui::Pos2` as used by the render code (a 2D float point). -/
structure Pos2 where
  x : ℚ
  y : ℚ
deriving DecidableEq, Repr

/-- Embeds `egui::Color32` built via `from_rgba_unmultiplied` (main.rs
lines 107–109): the four raw components, each a `u8`. -/
structure Color32 where
  r : Nat
  g : Nat
  b : Nat
  a : Nat
deriving DecidableEq, Repr

/-- Embeds `egui::Stroke` as produced by `StrokeFromStrokeConfig`
(main.rs lines 113–127). -/
structure Stroke where
  width : ℚ
  color : Color32
deriving DecidableEq, Repr

/-- Embeds `ItemTypeData` (main.rs lines 137–167). -/
inductive ItemTypeData where
  | Image (path : String)
  | Text (value : String) (color : Color32) (size : ℚ)
  | Rectangle (size : Vec2) (fill_color : Color32) (stroke : Stroke)
  | Circle (radius : ℚ) (fill_color : Color32) (stroke : Stroke)
deriving DecidableEq, Repr

/-- Embeds `PositionModifier` (main.rs lines 169–175). -/
inductive PositionModifier where
  | StickLeft (range : ℚ)
  | StickRight (range : ℚ)
deriving DecidableEq, Repr

/-- Embeds `Item` (main.rs lines 195–207); the `if` field is `condition`. -/
structure Item where
  type : ItemTypeData
  position : Pos2
  position_modifier : Option PositionModifier
  condition : List Condition
deriving DecidableEq, Repr

/-- Embeds `Layout` (main.rs lines 265–270). -/
structure Layout where
  name : String
  items : List Item
deriving DecidableEq, Repr

/-- Embeds `ControllerConfig` (main.rs lines 43–48). -/
structure ControllerConfig where
  id : Nat
  layout : String
  position : Vec2
deriving DecidableEq, Repr

/-- Embeds `Config` (main.rs lines 272–281). -/
structure Config where
  scale : ℚ
  size : Vec2
  controllers : List ControllerConfig
  layouts : List Layout
  items : List Item
deriving DecidableEq, Repr

/-- Embeds `load_config` (main.rs lines 283–286). The file read and the
TOML parse are external collaborators; their successful output is the
argument. The function performs no semantic validation of its own — in
particular no layout-name resolution — and returns the parsed value
unchanged. (Read or parse failure aborts the process before any value is
produced, so every loaded configuration is exactly a parsed one.) -/
def load_config (parsed : Config) : Config := parsed

/-- Rust `char::to_digit(16)` on ASCII, as consumed by
`u8::from_str_radix` inside `ColorFromString` (main.rs line 103). -/
def hexDigitVal (ch : Char) : Option Nat :=
  if '0' ≤ ch ∧ ch ≤ '9' then some (ch.toNat - '0'.toNat)
  else if 'a' ≤ ch ∧ ch ≤ 'f' then some (ch.toNat - 'a'.toNat + 10)
  else if 'A' ≤ ch ∧ ch ≤ 'F' then some (ch.toNat - 'A'.toNat + 10)
  else none

/-- One digit step of `u8::from_str_radix(s, 16)` for a non-negative
parse: `checked_mul` by 16 then `checked_add` of the digit, failing on
overflow past `u8::MAX`. -/
def hexAccumPos (acc : Option Nat) (ch : Char) : Option Nat := do
  let a ← acc
  let d ← hexDigitVal ch
  let m := a * 16
  if m ≤ 255 then if m + d ≤ 255 then some (m + d) else none
  else none

/-- One digit step of `u8::from_str_radix(s, 16)` after a leading `-`:
`checked_mul` by 16 then `checked_sub` of the digit, failing when the
unsigned value would go below zero. -/
def hexAccumNeg (acc : Option Nat) (ch : Char) : Option Nat := do
  let a ← acc
  let d ← hexDigitVal ch
  let m := a * 16
  if m ≤ 255 then if d ≤ m then some (m - d) else none
  else none

/-- Embeds `u8::from_str_radix(byte_str, 16)` (main.rs line 103), the
Rust standard-library routine the color decoder calls: an optional
leading `+` or `-` sign, then at least one radix-16 digit, accumulated
with checked `u8` arithmetic. -/
def u8FromStrRadix16 (s : List Char) : Option Nat :=
  match s with
  | [] => none
  | first :: rest =>
    if first = '+' then
      match rest with
      | [] => none
      | _ => rest.foldl hexAccumPos (some 0)
    else if first = '-' then
      match rest with
      | [] => none
      | _ => rest.foldl hexAccumNeg (some 0)
    else s.foldl hexAccumPos (some 0)

/-- Embeds `s.get(i * 2..i * 2 + 2)` (main.rs lines 100–102). The string
is modelled as a list of characters; the source indexes UTF-8 bytes with a
char-boundary check, which coincides with character indexing whenever the
decode can succeed (hex digits and signs are ASCII, and a non-ASCII byte
is never a hex digit). -/
def colorGet (s : List Char) (i : Nat) : Option (List Char) :=
  if i * 2 + 2 ≤ s.length then some ((s.drop (i * 2)).take 2) else none

/-- Embeds `ColorFromString::deserialize_as` (main.rs lines 91–111): the
loop over `i = 0..4` unrolled; each iteration slices two characters and
parses them as a hex `u8`, the first failure aborting the decode. -/
def decodeColor (s : List Char) : Option Color32 :=
  match colorGet s 0 >>= u8FromStrRadix16, colorGet s 1 >>= u8FromStrRadix16,
        colorGet s 2 >>= u8FromStrRadix16, colorGet s 3 >>= u8FromStrRadix16 with
  | some b0, some b1, some b2, some b3 => some ⟨b0, b1, b2, b3⟩
  | _, _, _, _ => none

/-- The `match controller_state.id` arm of the global active-set loop
(main.rs lines 361–371): ids 0–7 map to their per-id connected flag, any
other id adds nothing. -/
def connectedFlag : Nat → Option ConditionValue
  | 0 => some ConditionValue.Connected0
  | 1 => some ConditionValue.Connected1
  | 2 => some ConditionValue.Connected2
  | 3 => some ConditionValue.Connected3
  | 4 => some ConditionValue.Connected4
  | 5 => some ConditionValue.Connected5
  | 6 => some ConditionValue.Connected6
  | 7 => some ConditionValue.Connected7
  | _ => none

/-- The global active-set construction (main.rs lines 355–372): snapshots
with `c != 1` are skipped (`continue`), the rest push their per-id flag. -/
def globalActiveConditions (states : List ControllerState) : List ConditionValue :=
  states.filterMap fun s => if s.c ≠ 1 then none else connectedFlag s.id

/-- Embeds the static `BUTTON_CONDITIONS` table (main.rs lines 324–341). -/
def BUTTON_CONDITIONS : List ConditionValue :=
  [ConditionValue.ButtonA,
   ConditionValue.ButtonB,
   ConditionValue.ButtonX,
   ConditionValue.ButtonY,
   ConditionValue.ButtonStickLeft,
   ConditionValue.ButtonStickRight,
   ConditionValue.ButtonL,
   ConditionValue.ButtonR,
   ConditionValue.ButtonZL,
   ConditionValue.ButtonZR,
   ConditionValue.ButtonPlus,
   ConditionValue.ButtonMinus,
   ConditionValue.ButtonDpadLeft,
   ConditionValue.ButtonDpadUp,
   ConditionValue.ButtonDpadRight,
   ConditionValue.ButtonDpadDown]

/-- The button part of the per-controller active set (main.rs lines
405–409): `BUTTON_CONDITIONS.iter().enumerate().take(16)`, pushing the
condition whenever `bs & (1 << bit) != 0`. -/
def buttonActiveConditions (bs : Nat) : List ConditionValue :=
  (BUTTON_CONDITIONS.enum.take 16).filterMap fun p =>
    if bs &&& (1 <<< p.1) ≠ 0 then some p.2 else none

/-- The whole per-controller active set (main.rs lines 401–409): the
generic `Connected` flag when `c == 1`, then the button flags. -/
def controllerActiveConditions (s : ControllerState) : List ConditionValue :=
  (if s.c = 1 then [ConditionValue.Connected] else []) ++ buttonActiveConditions s.bs

/-- The final position of an active layout item (main.rs lines 419–437):
base `(controller.position + item.position) * scale`, then the optional
stick displacement `+range*scale/32767 * stick.x` on x and
`-range*scale/32767 * stick.y` on y. -/
def itemFinalPosition (config : Config) (controller : ControllerConfig)
    (state : ControllerState) (item : Item) : Pos2 :=
  let p : Pos2 := ⟨(controller.position.x + item.position.x) * config.scale,
                   (controller.position.y + item.position.y) * config.scale⟩
  match item.position_modifier with
  | some (PositionModifier.StickLeft range) =>
      ⟨p.x + (range * config.scale) / 32767 * state.ls.x,
       p.y - (range * config.scale) / 32767 * state.ls.y⟩
  | some (PositionModifier.StickRight range) =>
      ⟨p.x + (range * config.scale) / 32767 * state.rs.x,
       p.y - (range * config.scale) / 32767 * state.rs.y⟩
  | none => p

/-- The layout lookup of the controller loop (main.rs lines 390–393):
`config.layouts.iter().find(|l| l.name == controller.layout)`. -/
def findLayout (config : Config) (controller : ControllerConfig) : Option Layout :=
  config.layouts.find? fun l => l.name == controller.layout

/-- The items a resolved layout draws for one controller (main.rs lines
411–439): every active item, paired with its final position, in layout
order. Drawing itself is the external surface; the drawn list is the
observable output. -/
def drawnLayoutItems (config : Config) (controller : ControllerConfig)
    (state : ControllerState) (layout : Layout) : List (Item × Pos2) :=
  (layout.items.filter fun item =>
      itemActive item.condition (controllerActiveConditions state)).map
    fun item => (item, itemFinalPosition config controller state item)

/-- One iteration of the controller loop (main.rs lines 388–441): the
layout lookup's `.expect("unknown layout")` panic is `Except.error`; a
missing snapshot is `continue`, i.e. zero drawn items. -/
def renderController (config : Config) (states : List ControllerState)
    (controller : ControllerConfig) : Except String (List (Item × Pos2)) :=
  match findLayout config controller with
  | none => Except.error "unknown layout"
  | some layout =>
    match states.find? fun s => s.id == controller.id with
    | none => Except.ok []
    | some state => Except.ok (drawnLayoutItems config controller state layout)

/-- The controller loop over a binding list (main.rs line 388), in
configuration order; a panic in any iteration aborts the frame. -/
def renderControllers (config : Config) (states : List ControllerState) :
    List ControllerConfig → Except String (List (Item × Pos2))
  | [] => Except.ok []
  | c :: rest => do
      let d ← renderController config states c
      let ds ← renderControllers config states rest
      Except.ok (d ++ ds)

/-- The store update of one client-loop iteration (main.rs lines
305–314): the decode of the accumulated message (`serde_json`, an
external collaborator) either yields a snapshot list, which is assigned
wholesale to the store, or fails, in which case `continue` leaves the
store untouched. -/
def clientStoreUpdate (decoded : Option (List ControllerState))
    (store : List ControllerState) : List ControllerState :=
  match decoded with
  | some v => v
  | none => store

example : itemActive [] [ConditionValue.ButtonA] = true := by decide

example :
    itemActive [⟨false, ConditionValue.ButtonA⟩, ⟨true, ConditionValue.Connected1⟩]
      [ConditionValue.ButtonA] = true := by decide

example :
    itemActive [⟨false, ConditionValue.ButtonA⟩, ⟨true, ConditionValue.Connected1⟩]
      [ConditionValue.ButtonA, ConditionValue.Connected1] = false := by decide

/-- C1: an item is active iff every (negated, value) pair of its condition
list satisfies `present == !negated`, where `present` is membership of the
value in the active set; any unsatisfied pair makes the item inactive, and
an item with an empty condition list is active for every active set. -/
theorem itemActive_iff_all_satisfied (conds : List Condition)
    (active : List ConditionValue) :
    (itemActive conds active = true ↔
      ∀ cond ∈ conds, (cond.value ∈ active ↔ cond.not = false)) ∧
    itemActive [] active = true := by
  constructor
  · unfold itemActive conditionSatisfied
    rw [List.all_eq_true]
    refine forall₂_congr fun cond _ => ?_
    rcases cond with ⟨n, v⟩
    cases n
    · simp [List.any_eq_true]
    · simp [List.any_eq_true]
      exact ⟨fun h hv => h v hv rfl, fun h x hx he => h (he ▸ hx)⟩
  · rfl

/-- Witness for C1: a mixed condition list is active exactly on the
described active set. -/
theorem itemActive_iff_all_satisfied_witness :
    itemActive [⟨false, ConditionValue.ButtonA⟩, ⟨true, ConditionValue.Connected1⟩]
      [ConditionValue.ButtonA] = true :=
  (itemActive_iff_all_satisfied
    [⟨false, ConditionValue.ButtonA⟩, ⟨true, ConditionValue.Connected1⟩]
    [ConditionValue.ButtonA]).1.mpr (by decide)

/-- C8: the activation verdict is invariant under every permutation of the
condition list; the evaluator is a pure function of its two arguments. -/
theorem itemActive_perm_invariant (conds conds' : List Condition)
    (active : List ConditionValue) (h : conds.Perm conds') :
    itemActive conds active = itemActive conds' active := by
  unfold itemActive
  rw [Bool.eq_iff_iff, List.all_eq_true, List.all_eq_true]
  exact ⟨fun ha x hx => ha x (h.mem_iff.mpr hx),
         fun ha x hx => ha x (h.mem_iff.mp hx)⟩

/-- Witness for C8 at a concrete permutation. -/
theorem itemActive_perm_invariant_witness :
    itemActive [⟨false, ConditionValue.ButtonA⟩, ⟨true, ConditionValue.Connected1⟩]
        [ConditionValue.ButtonA] =
      itemActive [⟨true, ConditionValue.Connected1⟩, ⟨false, ConditionValue.ButtonA⟩]
        [ConditionValue.ButtonA] :=
  itemActive_perm_invariant _ _ _ (List.Perm.swap _ _ _)

/-- C7: one client-loop iteration leaves the store unchanged when the
decode fails, and replaces its contents wholesale with the decoded
collection when the decode succeeds. -/
theorem clientStoreUpdate_spec (decoded : Option (List ControllerState))
    (store : List ControllerState) :
    (decoded = none → clientStoreUpdate decoded store = store) ∧
    (∀ v, decoded = some v → clientStoreUpdate decoded store = v) := by
  constructor
  · intro h; rw [h]; rfl
  · intro v h; rw [h]; rfl

/-- Witness for C7: a failing decode keeps the one-element store, a
successful decode of the empty collection empties it. -/
theorem clientStoreUpdate_spec_witness :
    clientStoreUpdate none [⟨0, 1, 0, ⟨0, 0⟩, ⟨0, 0⟩⟩] = [⟨0, 1, 0, ⟨0, 0⟩, ⟨0, 0⟩⟩] ∧
    clientStoreUpdate (some []) [⟨0, 1, 0, ⟨0, 0⟩, ⟨0, 0⟩⟩] = [] :=
  ⟨(clientStoreUpdate_spec none _).1 rfl,
   (clientStoreUpdate_spec (some []) [⟨0, 1, 0, ⟨0, 0⟩, ⟨0, 0⟩⟩]).2 [] rfl⟩

/-- C2 counterexample: a parseable configuration binding controller 0 to
the layout name "missing" while `layouts` is empty loads without failure
(loading performs no layout validation), and rendering it panics on the
layout lookup. -/
theorem load_succeeds_render_panics :
    load_config ⟨1, ⟨0, 0⟩, [⟨0, "missing", ⟨0, 0⟩⟩], [], []⟩ =
      ⟨1, ⟨0, 0⟩, [⟨0, "missing", ⟨0, 0⟩⟩], [], []⟩ ∧
    renderControllers ⟨1, ⟨0, 0⟩, [⟨0, "missing", ⟨0, 0⟩⟩], [], []⟩ []
        [⟨0, "missing", ⟨0, 0⟩⟩] =
      Except.error "unknown layout" :=
  ⟨rfl, rfl⟩

/-- C2 amended: configuration loading performs no layout-name validation
(it returns the parsed value unchanged), and a controller binding whose
layout name does not resolve panics at rendering time, when the binding is
processed — the lookup happens before the snapshot check, so it panics
even without a snapshot. -/
theorem unresolved_layout_render_error (config : Config)
    (states : List ControllerState) (controller : ControllerConfig)
    (h : findLayout config controller = none) :
    load_config config = config ∧
    renderController config states controller = Except.error "unknown layout" := by
  constructor
  · rfl
  · unfold renderController
    rw [h]

/-- Witness for the amended C2 at the counterexample configuration. -/
theorem unresolved_layout_render_error_witness :
    renderController ⟨1, ⟨0, 0⟩, [⟨0, "missing", ⟨0, 0⟩⟩], [], []⟩ []
        ⟨0, "missing", ⟨0, 0⟩⟩ =
      Except.error "unknown layout" :=
  (unresolved_layout_render_error ⟨1, ⟨0, 0⟩, [⟨0, "missing", ⟨0, 0⟩⟩], [], []⟩ []
    ⟨0, "missing", ⟨0, 0⟩⟩ rfl).2

/-- C6: a binding whose resolved layout exists but whose id has no
matching snapshot contributes zero drawn items and no error, and the
controller loop continues with the remaining bindings unaffected. -/
theorem missing_snapshot_skips_binding (config : Config)
    (states : List ControllerState) (controller : ControllerConfig)
    (layout : Layout) (rest : List ControllerConfig)
    (hl : findLayout config controller = some layout)
    (hs : states.find? (fun s => s.id == controller.id) = none) :
    renderController config states controller = Except.ok [] ∧
    renderControllers config states (controller :: rest) =
      renderControllers config states rest := by
  have hok : renderController config states controller = Except.ok [] := by
    unfold renderController
    rw [hl, hs]
  refine ⟨hok, ?_⟩
  show Except.bind (renderController config states controller) _ = _
  rw [hok]
  cases h : renderControllers config states rest <;> simp [Except.bind] <;> rfl

/-- Witness for C6: a one-binding configuration with its layout present
and an empty store draws nothing and raises no error. -/
theorem missing_snapshot_skips_binding_witness :
    renderController ⟨1, ⟨0, 0⟩, [⟨0, "lay", ⟨0, 0⟩⟩], [⟨"lay", []⟩], []⟩ []
        ⟨0, "lay", ⟨0, 0⟩⟩ =
      Except.ok [] ∧
    renderControllers ⟨1, ⟨0, 0⟩, [⟨0, "lay", ⟨0, 0⟩⟩], [⟨"lay", []⟩], []⟩ []
        [⟨0, "lay", ⟨0, 0⟩⟩] =
      renderControllers ⟨1, ⟨0, 0⟩, [⟨0, "lay", ⟨0, 0⟩⟩], [⟨"lay", []⟩], []⟩ [] [] :=
  missing_snapshot_skips_binding _ [] ⟨0, "lay", ⟨0, 0⟩⟩ ⟨"lay", []⟩ [] rfl rfl

/-- C4: an active item with a `StickLeft(range)` modifier lands at
`(anchor + item.position) * scale` displaced by
`(+range*scale/32767 * ls.x, -range*scale/32767 * ls.y)`, and a
`StickRight(range)` modifier uses the same formula on the right-stick
reading. -/
theorem itemFinalPosition_stick_offset (config : Config)
    (controller : ControllerConfig) (state : ControllerState) (item : Item)
    (range : ℚ) :
    (item.position_modifier = some (PositionModifier.StickLeft range) →
      itemFinalPosition config controller state item =
        ⟨(controller.position.x + item.position.x) * config.scale +
            range * config.scale / 32767 * state.ls.x,
          (controller.position.y + item.position.y) * config.scale -
            range * config.scale / 32767 * state.ls.y⟩) ∧
    (item.position_modifier = some (PositionModifier.StickRight range) →
      itemFinalPosition config controller state item =
        ⟨(controller.position.x + item.position.x) * config.scale +
            range * config.scale / 32767 * state.rs.x,
          (controller.position.y + item.position.y) * config.scale -
            range * config.scale / 32767 * state.rs.y⟩) := by
  constructor <;> intro h <;> unfold itemFinalPosition <;> rw [h]

/-- Witness for C4: with `range = 100`, `scale = 1`, anchor and item
position zero, a left-stick reading of `(16383.5, -16383.5)` displaces by
`(+50, +50)`, while a `StickRight` item on the same controller follows the
(zero) right-stick reading independently. -/
theorem itemFinalPosition_stick_offset_witness :
    itemFinalPosition ⟨1, ⟨0, 0⟩, [], [], []⟩ ⟨0, "l", ⟨0, 0⟩⟩
        ⟨0, 1, 0, ⟨32767 / 2, -(32767 / 2)⟩, ⟨0, 0⟩⟩
        ⟨ItemTypeData.Image "p", ⟨0, 0⟩, some (PositionModifier.StickLeft 100), []⟩ =
      ⟨50, 50⟩ ∧
    itemFinalPosition ⟨1, ⟨0, 0⟩, [], [], []⟩ ⟨0, "l", ⟨0, 0⟩⟩
        ⟨0, 1, 0, ⟨32767 / 2, -(32767 / 2)⟩, ⟨0, 0⟩⟩
        ⟨ItemTypeData.Image "p", ⟨0, 0⟩, some (PositionModifier.StickRight 100), []⟩ =
      ⟨0, 0⟩ := by
  constructor
  · rw [(itemFinalPosition_stick_offset ⟨1, ⟨0, 0⟩, [], [], []⟩ ⟨0, "l", ⟨0, 0⟩⟩
      ⟨0, 1, 0, ⟨32767 / 2, -(32767 / 2)⟩, ⟨0, 0⟩⟩
      ⟨ItemTypeData.Image "p", ⟨0, 0⟩, some (PositionModifier.StickLeft 100), []⟩
      100).1 rfl]
    norm_num
  · rw [(itemFinalPosition_stick_offset ⟨1, ⟨0, 0⟩, [], [], []⟩ ⟨0, "l", ⟨0, 0⟩⟩
      ⟨0, 1, 0, ⟨32767 / 2, -(32767 / 2)⟩, ⟨0, 0⟩⟩
      ⟨ItemTypeData.Image "p", ⟨0, 0⟩, some (PositionModifier.StickRight 100), []⟩
      100).2 rfl]
    norm_num

/-- Membership in the button part of the per-controller active set: a
condition is pushed exactly when it sits at some index of
`BUTTON_CONDITIONS` whose mask bit is set. -/
theorem mem_buttonActiveConditions (bs : Nat) (cv : ConditionValue) :
    cv ∈ buttonActiveConditions bs ↔
      ∃ i, ∃ h : i < BUTTON_CONDITIONS.length,
        bs &&& (1 <<< i) ≠ 0 ∧ BUTTON_CONDITIONS.get ⟨i, h⟩ = cv := by
  unfold buttonActiveConditions
  rw [show BUTTON_CONDITIONS.enum.take 16 = BUTTON_CONDITIONS.enum from rfl,
    List.mem_filterMap]
  constructor
  · rintro ⟨⟨i, a⟩, hmem, hf⟩
    rw [List.mk_mem_enum_iff_get?, List.get?_eq_some] at hmem
    obtain ⟨hlt, hget⟩ := hmem
    by_cases hb : bs &&& (1 <<< i) ≠ 0
    · rw [if_pos hb] at hf
      exact ⟨i, hlt, hb, by rw [hget]; exact Option.some.inj hf⟩
    · rw [if_neg hb] at hf
      cases hf
  · rintro ⟨i, hlt, hb, hget⟩
    refine ⟨(i, BUTTON_CONDITIONS.get ⟨i, hlt⟩), ?_, ?_⟩
    · rw [List.mk_mem_enum_iff_get?, List.get?_eq_some]
      exact ⟨hlt, rfl⟩
    · rw [if_pos hb, hget]

/-- Masking `bs` to its low 16 bits does not change any of the tested
button bits. -/
theorem land_shift_mod_two_pow_16 (bs i : Nat) (h : i < 16) :
    (bs % 2 ^ 16) &&& (1 <<< i) = bs &&& (1 <<< i) := by
  apply Nat.eq_of_testBit_eq
  intro j
  rw [Nat.testBit_and, Nat.testBit_and, Nat.testBit_mod_two_pow]
  rcases eq_or_ne j i with rfl | hne
  · simp [h]
  · have h1 : Nat.testBit (1 <<< i) j = false := by
      rw [Nat.shiftLeft_eq, one_mul, Nat.testBit_two_pow]
      simp [Ne.symm hne]
    simp [h1]

/-- C5: the button part of the per-controller active set contains the
condition at index `i` of the fixed 16-entry ordering iff bit `i` of
`button_mask` is set; the table has 16 entries with `ButtonA` at bit 0 and
`ButtonDpadDown` at bit 15, and bits 16–31 contribute nothing (the set
only depends on the mask modulo `2 ^ 16`). -/
theorem button_bit_mapping (bs : Nat) :
    BUTTON_CONDITIONS.length = 16 ∧
    (∀ i (h : i < BUTTON_CONDITIONS.length),
      (BUTTON_CONDITIONS.get ⟨i, h⟩ ∈ buttonActiveConditions bs ↔
        bs &&& (1 <<< i) ≠ 0)) ∧
    BUTTON_CONDITIONS.get ⟨0, by decide⟩ = ConditionValue.ButtonA ∧
    BUTTON_CONDITIONS.get ⟨15, by decide⟩ = ConditionValue.ButtonDpadDown ∧
    buttonActiveConditions bs = buttonActiveConditions (bs % 2 ^ 16) := by
  refine ⟨rfl, ?_, rfl, rfl, ?_⟩
  · intro i h
    rw [mem_buttonActiveConditions]
    constructor
    · rintro ⟨j, hj, hb, hget⟩
      have hnd : BUTTON_CONDITIONS.Nodup := by decide
      have hij : (⟨j, hj⟩ : Fin BUTTON_CONDITIONS.length) = ⟨i, h⟩ :=
        (List.Nodup.get_inj_iff hnd).mp hget
      have : j = i := congrArg Fin.val hij
      subst this
      exact hb
    · intro hb
      exact ⟨i, h, hb, rfl⟩
  · unfold buttonActiveConditions
    refine List.filterMap_congr ?_
    rintro ⟨i, a⟩ hmem
    rw [show BUTTON_CONDITIONS.enum.take 16 = BUTTON_CONDITIONS.enum from rfl,
      List.mk_mem_enum_iff_get?, List.get?_eq_some] at hmem
    obtain ⟨hlt, _⟩ := hmem
    have h16 : i < 16 := hlt
    simp only [land_shift_mod_two_pow_16 bs i h16]

/-- Witness for C5: with mask `1 <<< 15`, index 15 of the table
(`ButtonDpadDown` by the theorem's fourth conjunct) is in the active set. -/
theorem button_bit_mapping_witness :
    BUTTON_CONDITIONS.get ⟨15, by decide⟩ ∈ buttonActiveConditions (1 <<< 15) :=
  ((button_bit_mapping (1 <<< 15)).2.1 15 (by decide)).mpr (by decide)

/-- Ids 8 and above have no per-id connected flag. -/
theorem connectedFlag_eq_none (n : Nat) (h : 7 < n) : connectedFlag n = none := by
  match n, h with
  | n + 8, _ => rfl

/-- C9: the global active set holds exactly the per-id `ConnectedN` flags
of the stored snapshots whose `c` flag is the wire value `1` and whose id
is in `0..7`; ids above 7 map to no flag at all. -/
theorem globalActiveConditions_spec (states : List ControllerState)
    (cv : ConditionValue) :
    (cv ∈ globalActiveConditions states ↔
      ∃ s ∈ states, s.c = 1 ∧ s.id ≤ 7 ∧ connectedFlag s.id = some cv) ∧
    (∀ n, 7 < n → connectedFlag n = none) := by
  refine ⟨?_, connectedFlag_eq_none⟩
  unfold globalActiveConditions
  rw [List.mem_filterMap]
  constructor
  · rintro ⟨s, hs, hf⟩
    by_cases hc : s.c ≠ 1
    · rw [if_pos hc] at hf
      cases hf
    · rw [if_neg hc] at hf
      push_neg at hc
      have hid : s.id ≤ 7 := by
        by_contra hgt
        push_neg at hgt
        rw [connectedFlag_eq_none s.id hgt] at hf
        cases hf
      exact ⟨s, hs, hc, hid, hf⟩
  · rintro ⟨s, hs, hc, _, hf⟩
    refine ⟨s, hs, ?_⟩
    rw [if_neg (by simp [hc])]
    exact hf

/-- Witness for C9: a connected snapshot with id 3 puts exactly
`Connected3` in the global set, and id 8 maps to no flag. -/
theorem globalActiveConditions_spec_witness :
    (ConditionValue.Connected3 ∈
      globalActiveConditions [⟨3, 1, 0, ⟨0, 0⟩, ⟨0, 0⟩⟩]) ∧
    connectedFlag 8 = none :=
  ⟨(globalActiveConditions_spec [⟨3, 1, 0, ⟨0, 0⟩, ⟨0, 0⟩⟩]
      ConditionValue.Connected3).1.mpr
    ⟨⟨3, 1, 0, ⟨0, 0⟩, ⟨0, 0⟩⟩, List.mem_singleton.mpr rfl, rfl, by decide, rfl⟩,
   (globalActiveConditions_spec [] ConditionValue.Connected0).2 8 (by decide)⟩

/-- C10: the per-controller active set is the button flags derived from
`button_mask` — independent of the `c` flag — together with the generic
`Connected` flag, which alone is gated on `c == 1`; in particular a
disconnected snapshot still contributes all its button flags. -/
theorem controllerActiveConditions_spec (s : ControllerState)
    (cv : ConditionValue) :
    (cv ∈ controllerActiveConditions s ↔
      (cv = ConditionValue.Connected ∧ s.c = 1) ∨
        cv ∈ buttonActiveConditions s.bs) ∧
    (s.c ≠ 1 →
      (cv ∈ controllerActiveConditions s ↔ cv ∈ buttonActiveConditions s.bs)) := by
  constructor
  · unfold controllerActiveConditions
    by_cases hc : s.c = 1 <;> simp [hc]
  · intro hc
    unfold controllerActiveConditions
    simp [hc]

/-- Witness for C10: a snapshot with `c = 0` and mask bit 0 set still puts
`ButtonA` in its active set. -/
theorem controllerActiveConditions_spec_witness :
    ConditionValue.ButtonA ∈
      controllerActiveConditions ⟨0, 0, 1, ⟨0, 0⟩, ⟨0, 0⟩⟩ :=
  ((controllerActiveConditions_spec ⟨0, 0, 1, ⟨0, 0⟩, ⟨0, 0⟩⟩
    ConditionValue.ButtonA).2 (by decide)).mpr (by decide)

/-- C3 counterexample: the nine-character string `FF00807FX` — length not
8, and containing the non-hex character `X` — still decodes successfully,
to RGBA (255, 0, 128, 127). -/
theorem decodeColor_length_not_eight_succeeds :
    decodeColor ['F', 'F', '0', '0', '8', '0', '7', 'F', 'X'] =
      some ⟨255, 0, 128, 127⟩ ∧
    (['F', 'F', '0', '0', '8', '0', '7', 'F', 'X'] : List Char).length ≠ 8 := by
  exact ⟨by decide, by decide⟩

/-- C3 amended: `FF00807F` decodes to RGBA (255, 0, 128, 127); every
string shorter than 8 characters fails to decode; but characters past the
first 8 are ignored, so a string of length other than 8 can decode
successfully — appending anything to a decodable 8-character string leaves
the result unchanged. -/
theorem decodeColor_spec :
    decodeColor ['F', 'F', '0', '0', '8', '0', '7', 'F'] =
      some ⟨255, 0, 128, 127⟩ ∧
    (∀ s : List Char, s.length < 8 → decodeColor s = none) ∧
    (∀ s t : List Char, s.length = 8 → decodeColor (s ++ t) = decodeColor s) := by
  refine ⟨by decide, ?_, ?_⟩
  · intro s hs
    have h3 : colorGet s 3 = none := by
      unfold colorGet
      rw [if_neg]
      omega
    unfold decodeColor
    rw [h3]
    cases h0 : colorGet s 0 >>= u8FromStrRadix16 <;>
      cases h1 : colorGet s 1 >>= u8FromStrRadix16 <;>
        cases h2 : colorGet s 2 >>= u8FromStrRadix16 <;> rfl
  · intro s t hs
    have hg : ∀ i, i < 4 → colorGet (s ++ t) i = colorGet s i := by
      intro i hi
      unfold colorGet
      rw [List.length_append, if_pos (by omega), if_pos (by omega)]
      have hdl : (s.drop (i * 2)).length = 8 - i * 2 := by
        rw [List.length_drop, hs]
      rw [List.drop_append_eq_append_drop, List.take_append_eq_append_take]
      rw [show 2 - (s.drop (i * 2)).length = 0 from by omega]
      rw [List.take_zero, List.append_nil]
    unfold decodeColor
    rw [hg 0 (by omega), hg 1 (by omega), hg 2 (by omega), hg 3 (by omega)]

/-- Witness for the amended C3: a four-character string fails, and the
counterexample string decodes identically to its 8-character prefix. -/
theorem decodeColor_spec_witness :
    decodeColor ['1', '2', '3', '4'] = none ∧
    decodeColor (['F', 'F', '0', '0', '8', '0', '7', 'F'] ++ ['X']) =
      decodeColor ['F', 'F', '0', '0', '8', '0', '7', 'F'] :=
  ⟨decodeColor_spec.2.1 _ (by decide), decodeColor_spec.2.2 _ _ (by decide)⟩

end Periscope
